import Mathlib

/-!
Verification of the OurAirports CSV-to-JSON converter (src/main.rs,
src/ourairports.rs).

The development shallowly embeds the record-mapper core of the program:

* the six record structs of `src/ourairports.rs` (we embed the four the
  claims mention: `Airport`, `AirportFrequency`, `Runway`, `Navaid`);
* the custom serde field coercions `bool_from_str` and
  `vec_string_from_string`;
* the CSV row-to-record decoding performed by `csv::Reader::deserialize`
  (header-name based field lookup, per-record width check against the
  header row, serde-style primitive parsing of each field);
* the JSON serialization performed by `serde_json::to_string` /
  `serde_json::to_string_pretty` on lists of records, and the JSON-value
  level record deserialization generated by `#[derive(Deserialize)]`.

Modelling conventions:

* Rust `String` is Lean `String`.  `str::to_lowercase` and `str::trim`
  are modelled on their ASCII fragment (`Char.toLower`, ASCII
  whitespace); every token the program's coercions distinguish is ASCII.
* Rust `i32` / `u32` parsing is modelled on `Int` / `Nat` with the exact
  range checks of the machine types.
* Rust `f64` fields are modelled opaquely: a parsed float is the numeral
  token that produced it (structure `F64`), and serialization emits that
  token back.  Value-level float identification (e.g. "1.0" = "1.00")
  and the non-finite tokens "inf"/"nan" are floating-point specifics
  deliberately outside the model; `parseF64` accepts exactly the finite
  decimal-numeral grammar.
* The textual layers owned by the `csv` and `serde_json` libraries are
  modelled at the value level: a CSV input is a list of rows (each a
  list of field strings, the first row being the header), and JSON
  deserialization of the program's own output is performed on the JSON
  value the serializer renders.
-/

deriving instance DecidableEq for Except

/-! ## ASCII character classes -/

/-- ASCII decimal digit test (`u8::is_ascii_digit`). -/
def isDigitChar (c : Char) : Bool :=
  '0' ≤ c && c ≤ '9'

/-- ASCII fragment of Rust `char::is_whitespace` (Unicode `White_Space`
restricted to ASCII: space, tab, line feed, vertical tab, form feed,
carriage return). -/
def isWsChar (c : Char) : Bool :=
  c = ' ' || c = '\t' || c = '\n' || c = '\x0b' || c = '\x0c' || c = '\r'

/-! ## Rust string helpers used by the coercions -/

/-- Splitting a character list at every comma, as Rust
`str::split(',')` does: the result always has (number of commas) + 1
segments, and the empty list yields one empty segment. -/
def splitCommaChars : List Char → List (List Char)
  | [] => [[]]
  | c :: cs =>
    if c = ',' then [] :: splitCommaChars cs
    else
      match splitCommaChars cs with
      | [] => [[c]]
      | h :: t => (c :: h) :: t

/-- Rust `str::trim` on a character list (ASCII whitespace model):
drop whitespace from both ends. -/
def trimChars (l : List Char) : List Char :=
  ((l.dropWhile isWsChar).reverse.dropWhile isWsChar).reverse

/-- Rust `str::split(',')` on strings. -/
def splitComma (s : String) : List String :=
  (splitCommaChars s.data).map (fun l => ⟨l⟩)

/-- Rust `str::trim` on strings. -/
def trimStr (s : String) : String :=
  ⟨trimChars s.data⟩

/-- Rust `str::to_lowercase` on its ASCII fragment: lowercase every
character. -/
def lowerStr (s : String) : String :=
  ⟨s.data.map Char.toLower⟩

/-! ## Numeric field parsing (Rust `FromStr` for the machine types) -/

/-- Numeric value of a digit list (most significant first). -/
def natOfDigits (l : List Char) : Nat :=
  l.foldl (fun a c => a * 10 + (c.toNat - 48)) 0

/-- Recognizer for a nonempty all-digit character list. -/
def allDigits (l : List Char) : Bool :=
  !l.isEmpty && l.all isDigitChar

/-- Deserialization / conversion errors of the pipeline, covering the
error cases of the `csv` reader, the serde derive and the custom
coercions of `src/ourairports.rs`. -/
inductive DeErr where
  /-- Record width differs from the width set by the first (header) row:
  `csv::ErrorKind::UnequalLengths` with expected and actual counts. -/
  | unequalLengths (expected got : Nat)
  /-- serde `invalid_value` as raised by `bool_from_str`: carries the
  offending (lowercased) token and the expectation message. -/
  | invalidValue (got expected : String)
  /-- serde `invalid_type`: a value of the wrong JSON type was found. -/
  | invalidType (got expected : String)
  /-- Failure to parse a numeric field token. -/
  | parseNum (got : String)
  /-- Missing required field (column or JSON key). -/
  | missingField (name : String)
deriving DecidableEq, Repr

/-- Rust `<i32 as FromStr>::from_str`: optional sign, one or more ASCII
digits, value within the `i32` range. -/
def parseI32 (s : String) : Except DeErr Int :=
  let core : List Char → Bool → Except DeErr Int := fun ds neg =>
    if allDigits ds then
      let v : Int := (natOfDigits ds : Nat)
      let v := if neg then -v else v
      if -(2 ^ 31) ≤ v ∧ v ≤ 2 ^ 31 - 1 then .ok v else .error (.parseNum s)
    else .error (.parseNum s)
  match s.data with
  | '+' :: ds => core ds false
  | '-' :: ds => core ds true
  | ds => core ds false

/-- Rust `<u32 as FromStr>::from_str`: optional plus sign, one or more
ASCII digits, value within the `u32` range. -/
def parseU32 (s : String) : Except DeErr Nat :=
  let core : List Char → Except DeErr Nat := fun ds =>
    if allDigits ds then
      let v := natOfDigits ds
      if v ≤ 2 ^ 32 - 1 then .ok v else .error (.parseNum s)
    else .error (.parseNum s)
  match s.data with
  | '+' :: ds => core ds
  | ds => core ds

/-- Optional exponent part of a float numeral: empty, or `e`/`E`
followed by an optionally signed nonempty digit string. -/
def expOk : List Char → Bool
  | [] => true
  | c :: r =>
    (c = 'e' || c = 'E') &&
      (match r with
       | '+' :: r2 => allDigits r2
       | '-' :: r2 => allDigits r2
       | r2 => allDigits r2)

/-- Body of a finite decimal float numeral after the optional sign:
`Digits [. Digits?] Exp?` or `. Digits Exp?` (the grammar of Rust
`<f64 as FromStr>` restricted to finite values). -/
def isF64Body (l : List Char) : Bool :=
  let ds := l.takeWhile isDigitChar
  let rest := l.dropWhile isDigitChar
  if ds.isEmpty then
    match rest with
    | '.' :: r2 =>
      let fs := r2.takeWhile isDigitChar
      let r3 := r2.dropWhile isDigitChar
      !fs.isEmpty && expOk r3
    | _ => false
  else
    match rest with
    | [] => true
    | '.' :: r2 => expOk (r2.dropWhile isDigitChar)
    | r => expOk r

/-- Finite decimal float numeral: optional sign then a numeral body. -/
def isF64Numeral (s : String) : Bool :=
  match s.data with
  | '+' :: r => isF64Body r
  | '-' :: r => isF64Body r
  | r => isF64Body r

/-- Opaque model of a parsed `f64`: the numeral token that produced it.
Serialization emits the token back; float value identification is not
modelled. -/
structure F64 where
  val : String
deriving DecidableEq, Repr

/-- Model of Rust `<f64 as FromStr>::from_str` on the finite decimal
fragment: accept exactly the numeral grammar, keep the token. -/
def parseF64 (s : String) : Except DeErr F64 :=
  if isF64Numeral s then .ok ⟨s⟩ else .error (.parseNum s)

/-! ## Custom serde coercions of `src/ourairports.rs` -/

/-- Embedding of `bool_from_str` (src/ourairports.rs): lowercase the
token, map "yes"/"1" to true and "no"/"0" to false, and report any
other token as an `invalid_value` error. -/
def bool_from_str (s : String) : Except DeErr Bool :=
  let l := lowerStr s
  if l = "yes" || l = "1" then .ok true
  else if l = "no" || l = "0" then .ok false
  else .error (.invalidValue l "Value must be yes or no")

/-- Embedding of `vec_string_from_string` (src/ourairports.rs): an
empty string yields the empty list, otherwise split at commas and trim
each segment.  On a string input this coercion never fails, so it is
total here. -/
def vec_string_from_string (s : String) : List String :=
  match s.length with
  | 0 => []
  | _ + 1 => (splitComma s).map trimStr

/-- Field decoding for `Option` fields under the `csv` crate's serde
deserializer: an empty field is `none`, any other token must parse. -/
def optField {α : Type} (parse : String → Except DeErr α) (s : String) :
    Except DeErr (Option α) :=
  if s = "" then .ok none else (parse s).map some

/-! ## Record structs (src/ourairports.rs)

Field names and order follow the Rust declarations.  `#[serde(rename)]`
attributes are reflected in the wire-name tables and decoders below. -/

/-- Embedding of `struct Airport` (src/ourairports.rs, 18 fields). -/
structure Airport where
  id : String
  ident : String
  airport_type : String
  name : String
  latitude_deg : F64
  longitude_deg : F64
  elevation_ft : Option Int
  continent : String
  iso_country : String
  iso_region : String
  municipality : String
  scheduled_service : Bool
  gps_code : String
  iata_code : String
  local_code : String
  home_link : String
  wikipedia_link : String
  keywords : List String
deriving DecidableEq, Repr

/-- Embedding of `struct AirportFrequency` (src/ourairports.rs,
6 fields, all plain text; `frequency_mhz` is deliberately a string). -/
structure AirportFrequency where
  id : String
  airport_ref : String
  airport_ident : String
  frequency_type : String
  description : String
  frequency_mhz : String
deriving DecidableEq, Repr

/-- Embedding of `struct Runway` (src/ourairports.rs, 20 fields). -/
structure Runway where
  id : String
  airport_ref : String
  airport_ident : String
  length_ft : Option Nat
  width_ft : Option Nat
  surface : String
  lighted : Bool
  closed : Bool
  le_ident : String
  le_latitude_deg : Option F64
  le_longitude_deg : Option F64
  le_elevation_ft : Option Int
  le_heading_deg_true : Option F64
  le_displaced_threshold_ft : Option Int
  he_ident : String
  he_latitude_deg : Option F64
  he_longitude_deg : Option F64
  he_elevation_ft : Option Int
  he_heading_deg_true : Option F64
  he_displaced_threshold_ft : Option Int
deriving DecidableEq, Repr

/-- Embedding of `struct Navaid` (src/ourairports.rs, 21 fields). -/
structure Navaid where
  id : String
  filename : String
  ident : String
  name : String
  navaid_type : String
  frequency_khz : String
  latitude_deg : Option F64
  longitude_deg : Option F64
  elevation_ft : Option Int
  iso_country : String
  dme_frequency_khz : String
  dme_channel : String
  dme_latitude_deg : Option F64
  dme_longitude_deg : Option F64
  dme_elevation_ft : Option Int
  slaved_variation_deg : Option F64
  magnetic_variation_deg : Option F64
  usage_type : String
  power : String
  associated_airport : String
deriving DecidableEq, Repr

/-! ## CSV row decoding

`csv::Reader::deserialize` reads the first row as the header and maps
record fields to struct fields by header name (serde wire names, so the
renamed columns are "type", "usageType", "le_heading_degT",
"he_heading_degT").  Unknown columns are ignored by the serde derive;
a missing required column is an error. -/

/-- Look a field up by wire name among the (header name, value) pairs
of one CSV record; a missing column is a serde missing-field error. -/
def getField (pairs : List (String × String)) (k : String) :
    Except DeErr String :=
  match pairs.lookup k with
  | some v => .ok v
  | none => .error (.missingField k)

/-- Named-pair decoder for `Airport`, following the serde derive: plain
text fields verbatim, mandatory `f64` fields parsed, optional `i32`
absent when empty, `scheduled_service` through `bool_from_str`,
`keywords` through `vec_string_from_string`. -/
def airportFromNamed (p : List (String × String)) : Except DeErr Airport := do
  let id ← getField p "id"
  let ident ← getField p "ident"
  let atype ← getField p "type"
  let name ← getField p "name"
  let lat ← getField p "latitude_deg" >>= parseF64
  let lon ← getField p "longitude_deg" >>= parseF64
  let elev ← getField p "elevation_ft" >>= optField parseI32
  let continent ← getField p "continent"
  let isoCountry ← getField p "iso_country"
  let isoRegion ← getField p "iso_region"
  let municipality ← getField p "municipality"
  let sched ← getField p "scheduled_service" >>= bool_from_str
  let gps ← getField p "gps_code"
  let iata ← getField p "iata_code"
  let localCode ← getField p "local_code"
  let home ← getField p "home_link"
  let wiki ← getField p "wikipedia_link"
  let kw ← getField p "keywords"
  .ok ⟨id, ident, atype, name, lat, lon, elev, continent, isoCountry,
       isoRegion, municipality, sched, gps, iata, localCode, home, wiki,
       vec_string_from_string kw⟩

/-- Named-pair decoder for `AirportFrequency`: six verbatim text
fields (the frequency-type column is named "type" on the wire). -/
def airportFrequencyFromNamed (p : List (String × String)) :
    Except DeErr AirportFrequency := do
  let id ← getField p "id"
  let aref ← getField p "airport_ref"
  let aident ← getField p "airport_ident"
  let ftype ← getField p "type"
  let desc ← getField p "description"
  let fmhz ← getField p "frequency_mhz"
  .ok ⟨id, aref, aident, ftype, desc, fmhz⟩

/-- Named-pair decoder for `Runway`: optional `u32` lengths, boolean
`lighted`/`closed` through `bool_from_str`, optional `f64` latitudes,
longitudes and true headings (wire names "le_heading_degT" and
"he_heading_degT"), optional `i32` elevations and thresholds. -/
def runwayFromNamed (p : List (String × String)) : Except DeErr Runway := do
  let id ← getField p "id"
  let aref ← getField p "airport_ref"
  let aident ← getField p "airport_ident"
  let lengthFt ← getField p "length_ft" >>= optField parseU32
  let widthFt ← getField p "width_ft" >>= optField parseU32
  let surface ← getField p "surface"
  let lighted ← getField p "lighted" >>= bool_from_str
  let closed ← getField p "closed" >>= bool_from_str
  let leIdent ← getField p "le_ident"
  let leLat ← getField p "le_latitude_deg" >>= optField parseF64
  let leLon ← getField p "le_longitude_deg" >>= optField parseF64
  let leElev ← getField p "le_elevation_ft" >>= optField parseI32
  let leHead ← getField p "le_heading_degT" >>= optField parseF64
  let leDisp ← getField p "le_displaced_threshold_ft" >>= optField parseI32
  let heIdent ← getField p "he_ident"
  let heLat ← getField p "he_latitude_deg" >>= optField parseF64
  let heLon ← getField p "he_longitude_deg" >>= optField parseF64
  let heElev ← getField p "he_elevation_ft" >>= optField parseI32
  let heHead ← getField p "he_heading_degT" >>= optField parseF64
  let heDisp ← getField p "he_displaced_threshold_ft" >>= optField parseI32
  .ok ⟨id, aref, aident, lengthFt, widthFt, surface, lighted, closed,
       leIdent, leLat, leLon, leElev, leHead, leDisp,
       heIdent, heLat, heLon, heElev, heHead, heDisp⟩

/-- Named-pair decoder for `Navaid` (wire names "type" and
"usageType"). -/
def navaidFromNamed (p : List (String × String)) : Except DeErr Navaid := do
  let id ← getField p "id"
  let filename ← getField p "filename"
  let ident ← getField p "ident"
  let name ← getField p "name"
  let ntype ← getField p "type"
  let freqKhz ← getField p "frequency_khz"
  let lat ← getField p "latitude_deg" >>= optField parseF64
  let lon ← getField p "longitude_deg" >>= optField parseF64
  let elev ← getField p "elevation_ft" >>= optField parseI32
  let isoCountry ← getField p "iso_country"
  let dmeFreq ← getField p "dme_frequency_khz"
  let dmeChannel ← getField p "dme_channel"
  let dmeLat ← getField p "dme_latitude_deg" >>= optField parseF64
  let dmeLon ← getField p "dme_longitude_deg" >>= optField parseF64
  let dmeElev ← getField p "dme_elevation_ft" >>= optField parseI32
  let slaved ← getField p "slaved_variation_deg" >>= optField parseF64
  let magnetic ← getField p "magnetic_variation_deg" >>= optField parseF64
  let usage ← getField p "usageType"
  let power ← getField p "power"
  let assoc ← getField p "associated_airport"
  .ok ⟨id, filename, ident, name, ntype, freqKhz, lat, lon, elev,
       isoCountry, dmeFreq, dmeChannel, dmeLat, dmeLon, dmeElev,
       slaved, magnetic, usage, power, assoc⟩

/-- Error-propagating map over a list, mirroring the conversion loop of
`src/main.rs` (`for line in rdr.deserialize { let record = line?; ... }`):
records are decoded in order and the first failure aborts. -/
def mapME {α β : Type} (f : α → Except DeErr β) : List α → Except DeErr (List β)
  | [] => .ok []
  | a :: as =>
    match f a with
    | .error e => .error e
    | .ok b =>
      match mapME f as with
      | .error e => .error e
      | .ok bs => .ok (b :: bs)

/-- Model of `csv::Reader::deserialize` over a parsed table: the first
row is the header; every later row must have exactly the header's
width (`csv::ErrorKind::UnequalLengths` otherwise) and is then decoded
by header-name lookup. -/
def csvDeserialize {α : Type} (dec : List (String × String) → Except DeErr α)
    (table : List (List String)) : Except DeErr (List α) :=
  match table with
  | [] => .ok []
  | header :: rows =>
    mapME (fun r =>
      if r.length = header.length then dec (header.zip r)
      else .error (.unequalLengths header.length r.length)) rows

/-- Header row of the OurAirports airports.csv table: the serde wire
names of the 18 `Airport` fields, in declaration order. -/
def stdAirportHeader : List String :=
  ["id", "ident", "type", "name", "latitude_deg", "longitude_deg",
   "elevation_ft", "continent", "iso_country", "iso_region",
   "municipality", "scheduled_service", "gps_code", "iata_code",
   "local_code", "home_link", "wikipedia_link", "keywords"]

/-- Header row of airport-frequencies.csv: wire names of the 6
`AirportFrequency` fields in declaration order. -/
def stdFrequencyHeader : List String :=
  ["id", "airport_ref", "airport_ident", "type", "description",
   "frequency_mhz"]

/-! ## JSON values produced by the serializer

The serde derive serializes each record as a JSON object whose values
are strings, numbers, booleans, null (for absent options) or arrays of
strings (for the keyword lists); a run's output is a JSON array of such
objects.  The embedding specializes the JSON value type to exactly this
shape. -/

/-- Scalar JSON values appearing in a serialized record. -/
inductive JScalar where
  | jnull
  | jbool (b : Bool)
  | jint (n : Int)
  | jfloat (v : F64)
  | jstr (s : String)
  | jarr (xs : List String)
deriving DecidableEq, Repr

/-- One serialized record: an ordered list of key-value members. -/
def JObj : Type := List (String × JScalar)

/-- One serialized run output: an ordered list of record objects. -/
def JDoc : Type := List JObj

/-- The serde name of a JSON value's type, as used in serde
`invalid_type` error messages. -/
def scalarTypeName : JScalar → String
  | .jnull => "null"
  | .jbool _ => "boolean"
  | .jint _ => "integer"
  | .jfloat _ => "floating point number"
  | .jstr _ => "string"
  | .jarr _ => "sequence"

/-- Serialization of an `Option Int` field (`None` becomes null). -/
def jOptInt : Option Int → JScalar
  | none => .jnull
  | some n => .jint n

/-- Serialization of an `Option Nat` (`u32`) field. -/
def jOptNat : Option Nat → JScalar
  | none => .jnull
  | some n => .jint n

/-- Serialization of an `Option f64` field. -/
def jOptFloat : Option F64 → JScalar
  | none => .jnull
  | some v => .jfloat v

/-- Serde serialization of an `Airport` as a JSON object: all 18 fields
in declaration order, under their wire names (`airport_type` is renamed
to "type"). -/
def airportToJObj (a : Airport) : JObj :=
  [("id", .jstr a.id),
   ("ident", .jstr a.ident),
   ("type", .jstr a.airport_type),
   ("name", .jstr a.name),
   ("latitude_deg", .jfloat a.latitude_deg),
   ("longitude_deg", .jfloat a.longitude_deg),
   ("elevation_ft", jOptInt a.elevation_ft),
   ("continent", .jstr a.continent),
   ("iso_country", .jstr a.iso_country),
   ("iso_region", .jstr a.iso_region),
   ("municipality", .jstr a.municipality),
   ("scheduled_service", .jbool a.scheduled_service),
   ("gps_code", .jstr a.gps_code),
   ("iata_code", .jstr a.iata_code),
   ("local_code", .jstr a.local_code),
   ("home_link", .jstr a.home_link),
   ("wikipedia_link", .jstr a.wikipedia_link),
   ("keywords", .jarr a.keywords)]

/-- Serde serialization of an `AirportFrequency` (`frequency_type` is
renamed to "type"; `frequency_mhz` is emitted as the stored string). -/
def airportFrequencyToJObj (f : AirportFrequency) : JObj :=
  [("id", .jstr f.id),
   ("airport_ref", .jstr f.airport_ref),
   ("airport_ident", .jstr f.airport_ident),
   ("type", .jstr f.frequency_type),
   ("description", .jstr f.description),
   ("frequency_mhz", .jstr f.frequency_mhz)]

/-- Serde serialization of a `Runway` (the true-heading fields are
renamed to "le_heading_degT" and "he_heading_degT"). -/
def runwayToJObj (r : Runway) : JObj :=
  [("id", .jstr r.id),
   ("airport_ref", .jstr r.airport_ref),
   ("airport_ident", .jstr r.airport_ident),
   ("length_ft", jOptNat r.length_ft),
   ("width_ft", jOptNat r.width_ft),
   ("surface", .jstr r.surface),
   ("lighted", .jbool r.lighted),
   ("closed", .jbool r.closed),
   ("le_ident", .jstr r.le_ident),
   ("le_latitude_deg", jOptFloat r.le_latitude_deg),
   ("le_longitude_deg", jOptFloat r.le_longitude_deg),
   ("le_elevation_ft", jOptInt r.le_elevation_ft),
   ("le_heading_degT", jOptFloat r.le_heading_deg_true),
   ("le_displaced_threshold_ft", jOptInt r.le_displaced_threshold_ft),
   ("he_ident", .jstr r.he_ident),
   ("he_latitude_deg", jOptFloat r.he_latitude_deg),
   ("he_longitude_deg", jOptFloat r.he_longitude_deg),
   ("he_elevation_ft", jOptInt r.he_elevation_ft),
   ("he_heading_degT", jOptFloat r.he_heading_deg_true),
   ("he_displaced_threshold_ft", jOptInt r.he_displaced_threshold_ft)]

/-- Serde serialization of a `Navaid` (`navaid_type` is renamed to
"type" and `usage_type` to "usageType"). -/
def navaidToJObj (n : Navaid) : JObj :=
  [("id", .jstr n.id),
   ("filename", .jstr n.filename),
   ("ident", .jstr n.ident),
   ("name", .jstr n.name),
   ("type", .jstr n.navaid_type),
   ("frequency_khz", .jstr n.frequency_khz),
   ("latitude_deg", jOptFloat n.latitude_deg),
   ("longitude_deg", jOptFloat n.longitude_deg),
   ("elevation_ft", jOptInt n.elevation_ft),
   ("iso_country", .jstr n.iso_country),
   ("dme_frequency_khz", .jstr n.dme_frequency_khz),
   ("dme_channel", .jstr n.dme_channel),
   ("dme_latitude_deg", jOptFloat n.dme_latitude_deg),
   ("dme_longitude_deg", jOptFloat n.dme_longitude_deg),
   ("dme_elevation_ft", jOptInt n.dme_elevation_ft),
   ("slaved_variation_deg", jOptFloat n.slaved_variation_deg),
   ("magnetic_variation_deg", jOptFloat n.magnetic_variation_deg),
   ("usageType", .jstr n.usage_type),
   ("power", .jstr n.power),
   ("associated_airport", .jstr n.associated_airport)]

/-- Wire keys of a serialized object, in emission order. -/
def objKeys (o : JObj) : List String :=
  o.map Prod.fst

/-! ## Rendering to text (serde_json formatters) -/

/-- Decimal digit rendering of a `Nat` (core `Nat.repr`, matching the
Rust `Display` output serde_json uses for unsigned integers). -/
def renderNat (n : Nat) : String :=
  Nat.repr n

/-- Decimal rendering of an `Int`, matching serde_json's integer
output. -/
def renderInt : Int → String
  | .ofNat m => renderNat m
  | .negSucc m => "-" ++ renderNat (m + 1)

/-- Lowercase hexadecimal digit, as in serde_json's `\u00XX` escapes. -/
def hexDigitChar (n : Nat) : Char :=
  if n < 10 then Char.ofNat (48 + n) else Char.ofNat (87 + n)

/-- serde_json's escaping of one character inside a JSON string:
quote and backslash escaped, the common control characters by short
escapes, other control characters as `\u00XX`, everything else
verbatim. -/
def escChar (c : Char) : List Char :=
  if c = '"' then ['\\', '"']
  else if c = '\\' then ['\\', '\\']
  else if c = '\x08' then ['\\', 'b']
  else if c = '\t' then ['\\', 't']
  else if c = '\n' then ['\\', 'n']
  else if c = '\x0c' then ['\\', 'f']
  else if c = '\r' then ['\\', 'r']
  else if c.toNat < 32 then
    ['\\', 'u', '0', '0', hexDigitChar (c.toNat / 16), hexDigitChar (c.toNat % 16)]
  else [c]

/-- Escaped body of a JSON string literal. -/
def escBody (s : String) : List Char :=
  s.data.flatMap escChar

/-- JSON string literal for `s`. -/
def renderString (s : String) : String :=
  ⟨'"' :: escBody s ++ ['"']⟩

/-- Comma-separated concatenation. -/
def sepByComma : List String → String
  | [] => ""
  | [x] => x
  | x :: xs => x ++ "," ++ sepByComma xs

/-- Scalar JSON value in compact form.  A float is emitted as its
numeral token (see `F64`). -/
def renderScalarC : JScalar → String
  | .jnull => "null"
  | .jbool true => "true"
  | .jbool false => "false"
  | .jint n => renderInt n
  | .jfloat v => v.val
  | .jarr xs => "[" ++ sepByComma (xs.map renderString) ++ "]"
  | .jstr s => renderString s

/-- Compact rendering of one record object
(serde_json `CompactFormatter`: no whitespace at all). -/
def renderObjC (o : JObj) : String :=
  "\x7b" ++ sepByComma (o.map (fun m => renderString m.1 ++ ":" ++ renderScalarC m.2)) ++ "\x7d"

/-- Compact rendering of a run's output document. -/
def renderDocC (d : JDoc) : String :=
  "[" ++ sepByComma (d.map renderObjC) ++ "]"

/-- Indentation prefix of serde_json's `PrettyFormatter`: two spaces
per nesting level. -/
def ind : Nat → String
  | 0 => ""
  | n + 1 => "  " ++ ind n

/-- Newline-and-comma separated concatenation used by the pretty
formatter inside brackets: every element on its own indented line. -/
def sepByCommaNl (lvl : Nat) : List String → String
  | [] => ""
  | [x] => ind lvl ++ x
  | x :: xs => ind lvl ++ x ++ ",\n" ++ sepByCommaNl lvl xs

/-- Scalar JSON value in pretty form at nesting level `lvl`: only the
string-array case differs from the compact form (one element per
line), exactly as serde_json's `PrettyFormatter` behaves. -/
def renderScalarP (lvl : Nat) : JScalar → String
  | .jarr (x :: xs) =>
    "[\n" ++ sepByCommaNl (lvl + 1) ((x :: xs).map renderString) ++ "\n" ++ ind lvl ++ "]"
  | v => renderScalarC v

/-- Pretty rendering of one record object at nesting level `lvl`:
members one per line, a space after each colon, the closing brace on
its own line at the enclosing indentation. -/
def renderObjP (lvl : Nat) (o : JObj) : String :=
  match o with
  | [] => "\x7b\x7d"
  | _ =>
    "\x7b\n" ++
      sepByCommaNl (lvl + 1)
        (o.map (fun m => renderString m.1 ++ ": " ++ renderScalarP (lvl + 1) m.2)) ++
      "\n" ++ ind lvl ++ "\x7d"

/-- Pretty rendering of a run's output document. -/
def renderDocP (d : JDoc) : String :=
  match d with
  | [] => "[]"
  | _ => "[\n" ++ sepByCommaNl 1 (d.map (renderObjP 1)) ++ "\n]"

/-! ## The conversion pipeline of `src/main.rs` -/

/-- Serialization step of `convert_airport_data`:
`serde_json::to_string` when the pretty flag is off,
`serde_json::to_string_pretty` when it is on. -/
def serialize_airports (l : List Airport) (pretty_print : Bool) : String :=
  if !pretty_print then renderDocC (l.map airportToJObj)
  else renderDocP (l.map airportToJObj)

/-- Serialization step of `convert_airport_frequency_data`. -/
def serialize_airport_frequencies (l : List AirportFrequency)
    (pretty_print : Bool) : String :=
  if !pretty_print then renderDocC (l.map airportFrequencyToJObj)
  else renderDocP (l.map airportFrequencyToJObj)

/-- Embedding of `convert_airport_data` (src/main.rs) on an already
acquired and CSV-parsed table: deserialize every data row into an
`Airport` (any failure aborts with that error and no output), then
serialize the whole list to JSON text. -/
def convert_airport_data (table : List (List String)) (pretty_print : Bool) :
    Except DeErr String := do
  let airport_list ← csvDeserialize airportFromNamed table
  .ok (serialize_airports airport_list pretty_print)

/-- Embedding of `convert_airport_frequency_data` (src/main.rs). -/
def convert_airport_frequency_data (table : List (List String))
    (pretty_print : Bool) : Except DeErr String := do
  let freq_list ← csvDeserialize airportFrequencyFromNamed table
  .ok (serialize_airport_frequencies freq_list pretty_print)

/-! ## JSON-value level deserialization (the serde derive on JSON)

Deserializing a record from its serialized JSON form runs the same
derived `Deserialize` impl, so the `deserialize_with` coercions
(`bool_from_str`, `vec_string_from_string`) again expect *strings*
even though the serializer wrote a boolean or an array. -/

/-- Deserialize a JSON string value at key `k` (serde
`String::deserialize`): any non-string value is an `invalid_type`
error; `serde_json` reports a missing key as a missing field. -/
def jGetStr (o : JObj) (k : String) : Except DeErr String :=
  match o.lookup k with
  | some (.jstr s) => .ok s
  | some v => .error (.invalidType (scalarTypeName v) "a string")
  | none => .error (.missingField k)

/-- Deserialize a mandatory `f64` field from JSON. -/
def jGetF64 (o : JObj) (k : String) : Except DeErr F64 :=
  match o.lookup k with
  | some (.jfloat v) => .ok v
  | some (.jint n) => .ok ⟨renderInt n⟩
  | some v => .error (.invalidType (scalarTypeName v) "f64")
  | none => .error (.missingField k)

/-- Deserialize an `Option i32` field from JSON: an absent key or a
null is `None`, an in-range integer is `Some`, anything else is a type
or range error. -/
def jGetOptI32 (o : JObj) (k : String) : Except DeErr (Option Int) :=
  match o.lookup k with
  | none => .ok none
  | some .jnull => .ok none
  | some (.jint n) =>
    if -(2 ^ 31) ≤ n ∧ n ≤ 2 ^ 31 - 1 then .ok (some n)
    else .error (.invalidValue (renderInt n) "i32")
  | some v => .error (.invalidType (scalarTypeName v) "i32")

/-- JSON-value deserialization of an `Airport`, following the derived
impl: the boolean and keyword fields go through their
`deserialize_with` functions, which first demand a JSON string. -/
def airportFromJObj (o : JObj) : Except DeErr Airport := do
  let id ← jGetStr o "id"
  let ident ← jGetStr o "ident"
  let atype ← jGetStr o "type"
  let name ← jGetStr o "name"
  let lat ← jGetF64 o "latitude_deg"
  let lon ← jGetF64 o "longitude_deg"
  let elev ← jGetOptI32 o "elevation_ft"
  let continent ← jGetStr o "continent"
  let isoCountry ← jGetStr o "iso_country"
  let isoRegion ← jGetStr o "iso_region"
  let municipality ← jGetStr o "municipality"
  let sched ← jGetStr o "scheduled_service" >>= bool_from_str
  let gps ← jGetStr o "gps_code"
  let iata ← jGetStr o "iata_code"
  let localCode ← jGetStr o "local_code"
  let home ← jGetStr o "home_link"
  let wiki ← jGetStr o "wikipedia_link"
  let kw ← jGetStr o "keywords"
  .ok ⟨id, ident, atype, name, lat, lon, elev, continent, isoCountry,
       isoRegion, municipality, sched, gps, iata, localCode, home, wiki,
       vec_string_from_string kw⟩

/-- JSON-value deserialization of an `AirportFrequency`: six plain
string fields, no custom coercions. -/
def airportFrequencyFromJObj (o : JObj) : Except DeErr AirportFrequency := do
  let id ← jGetStr o "id"
  let aref ← jGetStr o "airport_ref"
  let aident ← jGetStr o "airport_ident"
  let ftype ← jGetStr o "type"
  let desc ← jGetStr o "description"
  let fmhz ← jGetStr o "frequency_mhz"
  .ok ⟨id, aref, aident, ftype, desc, fmhz⟩

/-! ## Insignificant whitespace

JSON whitespace outside string literals is insignificant.  The scanner
below removes exactly that whitespace; the pretty / compact equivalence
(claim about identical logical content) is stated through it. -/

/-- The four JSON whitespace characters (RFC 8259). -/
def isJsonWs (c : Char) : Bool :=
  c = ' ' || c = '\t' || c = '\n' || c = '\r'

/-- Scanner state: outside a string literal, inside one, or inside one
right after a backslash. -/
inductive ScanSt where
  | outStr
  | inStr
  | inEsc
deriving DecidableEq, Repr

/-- One scanner step: next state, and whether the character is kept. -/
def stripStep : ScanSt → Char → ScanSt × Bool
  | .outStr, c =>
    if c = '"' then (.inStr, true)
    else if isJsonWs c then (.outStr, false)
    else (.outStr, true)
  | .inStr, c =>
    if c = '\\' then (.inEsc, true)
    else if c = '"' then (.outStr, true)
    else (.inStr, true)
  | .inEsc, _ => (.inStr, true)

/-- Run the scanner: kept characters and final state. -/
def stripScan : ScanSt → List Char → List Char × ScanSt
  | st, [] => ([], st)
  | st, c :: cs =>
    let s := stripStep st c
    let r := stripScan s.1 cs
    (if s.2 then c :: r.1 else r.1, r.2)

/-- Remove the whitespace standing outside string literals. -/
def stripJsonWs (s : String) : String :=
  ⟨(stripScan .outStr s.data).1⟩

/-- A character sequence strips to another one, starting and ending
outside any string literal. -/
def StripsTo (a b : List Char) : Prop :=
  stripScan .outStr a = (b, .outStr)

instance (a b : List Char) : Decidable (StripsTo a b) :=
  inferInstanceAs (Decidable (_ = _))

/-- A character is safe when the scanner keeps it and it does not open
a string literal. -/
def jsonSafeChar (c : Char) : Bool :=
  !isJsonWs c && c ≠ '"'

/-- A scalar is render-wellformed when its float token (if any) has
only safe characters; every token `parseF64` accepts is of this form. -/
def scalarWF : JScalar → Bool
  | .jfloat v => v.val.data.all jsonSafeChar
  | _ => true

/-- All scalars of an object are render-wellformed. -/
def objWF (o : JObj) : Bool :=
  o.all (fun m => scalarWF m.2)

/-- All objects of a document are render-wellformed. -/
def docWF (d : JDoc) : Bool :=
  d.all objWF

theorem stripScan_append (xs : List Char) : ∀ (st : ScanSt) (ys : List Char),
    stripScan st (xs ++ ys) =
      ((stripScan st xs).1 ++ (stripScan (stripScan st xs).2 ys).1,
       (stripScan (stripScan st xs).2 ys).2) := by
  induction xs with
  | nil => intro st ys; simp [stripScan]
  | cons c cs ih =>
    intro st ys
    simp only [List.cons_append, stripScan]
    by_cases h : (stripStep st c).2 <;> simp [h, ih]

theorem StripsTo.append {a b a' b' : List Char}
    (ha : StripsTo a a') (hb : StripsTo b b') : StripsTo (a ++ b) (a' ++ b') := by
  unfold StripsTo at *
  rw [stripScan_append, ha, hb]

theorem stripsTo_nil : StripsTo [] [] := rfl

theorem stripsTo_safe {l : List Char} (h : l.all jsonSafeChar) :
    StripsTo l l := by
  induction l with
  | nil => exact stripsTo_nil
  | cons c cs ih =>
    simp only [List.all_cons, Bool.and_eq_true] at h
    have hs := h.1
    simp only [jsonSafeChar, Bool.and_eq_true, Bool.not_eq_true',
      decide_eq_true_eq] at hs
    unfold StripsTo at *
    simp [stripScan, stripStep, hs.1, hs.2, ih h.2]

theorem stripsTo_ws {l : List Char} (h : l.all isJsonWs) :
    StripsTo l [] := by
  induction l with
  | nil => exact stripsTo_nil
  | cons c cs ih =>
    simp only [List.all_cons, Bool.and_eq_true] at h
    have hq : ¬c = '"' := by
      intro hc; subst hc; simp [isJsonWs] at h
    unfold StripsTo at *
    simp [stripScan, stripStep, hq, h.1, ih h.2]

theorem hexDigitChar_ne_backslash (n : Nat) (h : n < 16) :
    ¬hexDigitChar n = '\\' := by
  interval_cases n <;> decide

theorem hexDigitChar_ne_quote (n : Nat) (h : n < 16) :
    ¬hexDigitChar n = '"' := by
  interval_cases n <;> decide

theorem stripScan_inStr_escChar (c : Char) :
    stripScan .inStr (escChar c) = (escChar c, .inStr) := by
  unfold escChar
  by_cases h1 : c = '"'
  · simp [h1, stripScan, stripStep]
  by_cases h2 : c = '\\'
  · simp [h1, h2, stripScan, stripStep]
  by_cases h3 : c = '\x08'
  · simp [h1, h2, h3, stripScan, stripStep]
  by_cases h4 : c = '\t'
  · simp [h1, h2, h3, h4, stripScan, stripStep]
  by_cases h5 : c = '\n'
  · simp [h1, h2, h3, h4, h5, stripScan, stripStep]
  by_cases h6 : c = '\x0c'
  · simp [h1, h2, h3, h4, h5, h6, stripScan, stripStep]
  by_cases h7 : c = '\r'
  · simp [h1, h2, h3, h4, h5, h6, h7, stripScan, stripStep]
  by_cases h8 : c.toNat < 32
  · have d1b := hexDigitChar_ne_backslash (c.toNat / 16) (by omega)
    have d1q := hexDigitChar_ne_quote (c.toNat / 16) (by omega)
    have d2b := hexDigitChar_ne_backslash (c.toNat % 16) (by omega)
    have d2q := hexDigitChar_ne_quote (c.toNat % 16) (by omega)
    simp [h1, h2, h3, h4, h5, h6, h7, h8, stripScan, stripStep,
      d1b, d1q, d2b, d2q]
  · have hb : ¬c = '\\' := h2
    have hq : ¬c = '"' := h1
    simp [h3, h4, h5, h6, h7, h8, stripScan, stripStep, hb, hq]

theorem data_append (a b : String) : (a ++ b).data = a.data ++ b.data := rfl

theorem stripScan_inStr_escBodyList (l : List Char) :
    stripScan .inStr (l.flatMap escChar) = (l.flatMap escChar, .inStr) := by
  induction l with
  | nil => rfl
  | cons c cs ih =>
    simp [List.flatMap_cons, stripScan_append, stripScan_inStr_escChar, ih]

theorem stripsTo_renderString (s : String) :
    StripsTo (renderString s).data (renderString s).data := by
  unfold StripsTo renderString
  show stripScan .outStr ('"' :: (escBody s ++ ['"'])) = _
  simp [stripScan, stripStep, stripScan_append, escBody,
    stripScan_inStr_escBodyList]

theorem ind_all_ws (n : Nat) : (ind n).data.all isJsonWs = true := by
  induction n with
  | zero => decide
  | succ n ih =>
    show (("  " : String) ++ ind n).data.all isJsonWs = true
    rw [data_append, List.all_append]
    simp [ih]
    decide

theorem digitChar_safe (m : Nat) (h : m < 10) :
    jsonSafeChar (Nat.digitChar m) = true := by
  interval_cases m <;> decide

theorem toDigitsCore_safe (fuel : Nat) : ∀ (n : Nat) (acc : List Char),
    acc.all jsonSafeChar = true →
    (Nat.toDigitsCore 10 fuel n acc).all jsonSafeChar = true := by
  induction fuel with
  | zero => intro n acc h; simpa [Nat.toDigitsCore] using h
  | succ fuel ih =>
    intro n acc h
    have hd : jsonSafeChar (Nat.digitChar (n % 10)) = true :=
      digitChar_safe _ (Nat.mod_lt _ (by norm_num))
    unfold Nat.toDigitsCore
    by_cases h0 : n / 10 = 0
    · simp [h0, hd, h]
    · simp only [h0, if_false]
      exact ih _ _ (by simp [hd, h])

theorem renderNat_safe (n : Nat) :
    (renderNat n).data.all jsonSafeChar = true := by
  show (Nat.toDigitsCore 10 (n + 1) n []).all jsonSafeChar = true
  exact toDigitsCore_safe _ _ _ (by decide)

theorem renderInt_safe (n : Int) :
    (renderInt n).data.all jsonSafeChar = true := by
  cases n with
  | ofNat m => exact renderNat_safe m
  | negSucc m =>
    show (("-" : String) ++ renderNat (m + 1)).data.all jsonSafeChar = true
    rw [data_append, List.all_append]
    simp [renderNat_safe]
    decide

theorem stripsTo_sepByCommaNl (lvl : Nat) {ps cs : List String}
    (h : List.Forall₂ (fun p c => StripsTo p.data c.data) ps cs) :
    StripsTo (sepByCommaNl lvl ps).data (sepByComma cs).data := by
  induction h with
  | nil => exact stripsTo_nil
  | @cons p c ps' cs' hpc htail ih =>
    cases htail with
    | nil =>
      have := (stripsTo_ws (ind_all_ws lvl)).append hpc
      simpa [sepByCommaNl, sepByComma, data_append] using this
    | @cons q d qs ds hqd hrest =>
      have h2 : StripsTo (",\n" : String).data ("," : String).data := by decide
      have := (((stripsTo_ws (ind_all_ws lvl)).append hpc).append h2).append ih
      simpa [sepByCommaNl, sepByComma, data_append, List.append_assoc]
        using this

theorem stripsTo_scalar (lvl : Nat) (v : JScalar) (h : scalarWF v = true) :
    StripsTo (renderScalarP lvl v).data (renderScalarC v).data := by
  cases v with
  | jnull =>
    show StripsTo ("null" : String).data ("null" : String).data
    exact stripsTo_safe (by decide)
  | jbool b =>
    cases b with
    | false =>
      show StripsTo ("false" : String).data ("false" : String).data
      exact stripsTo_safe (by decide)
    | true =>
      show StripsTo ("true" : String).data ("true" : String).data
      exact stripsTo_safe (by decide)
  | jint n =>
    show StripsTo (renderInt n).data (renderInt n).data
    exact stripsTo_safe (renderInt_safe n)
  | jfloat v =>
    show StripsTo v.val.data v.val.data
    exact stripsTo_safe h
  | jstr s => exact stripsTo_renderString s
  | jarr xs =>
    cases xs with
    | nil =>
      show StripsTo ("[" ++ sepByComma [] ++ "]" : String).data
        ("[" ++ sepByComma [] ++ "]" : String).data
      exact stripsTo_safe (by decide)
    | cons x xs' =>
      have hf : List.Forall₂ (fun p c => StripsTo p.data c.data)
          ((x :: xs').map renderString) ((x :: xs').map renderString) :=
        List.forall₂_same.mpr (by
          intro p hp
          rcases List.mem_map.mp hp with ⟨y, _, rfl⟩
          exact stripsTo_renderString y)
      have hm := stripsTo_sepByCommaNl (lvl + 1) hf
      have h1 : StripsTo ("[\n" : String).data ("[" : String).data := by decide
      have hws : (("\n" ++ ind lvl : String)).data.all isJsonWs = true := by
        rw [data_append, List.all_append]
        simp [ind_all_ws]
        decide
      have h2 : StripsTo ("\n" ++ ind lvl ++ "]" : String).data
          ("]" : String).data := by
        have := (stripsTo_ws hws).append (stripsTo_safe (l := ("]" : String).data) (by decide))
        simpa [data_append, List.append_assoc] using this
      have := (h1.append hm).append h2
      simpa [renderScalarP, renderScalarC, data_append, List.append_assoc]
        using this

theorem stripsTo_member (lvl : Nat) (k : String) (v : JScalar)
    (h : scalarWF v = true) :
    StripsTo (renderString k ++ ": " ++ renderScalarP lvl v).data
             (renderString k ++ ":" ++ renderScalarC v).data := by
  have h2 : StripsTo (": " : String).data (":" : String).data := by decide
  have := ((stripsTo_renderString k).append h2).append (stripsTo_scalar lvl v h)
  simpa [data_append, List.append_assoc] using this

theorem stripsTo_members (lvl : Nat) (o : JObj) (h : objWF o = true) :
    List.Forall₂ (fun p c => StripsTo p.data c.data)
      (o.map fun m => renderString m.1 ++ ": " ++ renderScalarP lvl m.2)
      (o.map fun m => renderString m.1 ++ ":" ++ renderScalarC m.2) := by
  induction o with
  | nil => exact List.Forall₂.nil
  | cons m ms ih =>
    simp only [objWF, List.all_cons, Bool.and_eq_true] at h
    exact List.Forall₂.cons (stripsTo_member lvl m.1 m.2 h.1) (ih h.2)

theorem stripsTo_obj (lvl : Nat) (o : JObj) (h : objWF o = true) :
    StripsTo (renderObjP lvl o).data (renderObjC o).data := by
  cases o with
  | nil =>
    show StripsTo ("\x7b\x7d" : String).data
      ("\x7b" ++ sepByComma [] ++ "\x7d" : String).data
    exact stripsTo_safe (by decide)
  | cons m ms =>
    have hm := stripsTo_sepByCommaNl (lvl + 1) (stripsTo_members (lvl + 1) (m :: ms) h)
    have h1 : StripsTo ("\x7b\n" : String).data ("\x7b" : String).data := by decide
    have hws : (("\n" ++ ind lvl : String)).data.all isJsonWs = true := by
      rw [data_append, List.all_append]
      simp [ind_all_ws]
      decide
    have h2 : StripsTo ("\n" ++ ind lvl ++ "\x7d" : String).data
        ("\x7d" : String).data := by
      have := (stripsTo_ws hws).append
        (stripsTo_safe (l := ("\x7d" : String).data) (by decide))
      simpa [data_append, List.append_assoc] using this
    have := (h1.append hm).append h2
    simpa [renderObjP, renderObjC, data_append, List.append_assoc] using this

theorem stripsTo_objList (d : JDoc) (h : docWF d = true) :
    List.Forall₂ (fun p c => StripsTo p.data c.data)
      (d.map (renderObjP 1)) (d.map renderObjC) := by
  induction d with
  | nil => exact List.Forall₂.nil
  | cons o os ih =>
    simp only [docWF, List.all_cons, Bool.and_eq_true] at h
    exact List.Forall₂.cons (stripsTo_obj 1 o h.1) (ih h.2)

theorem stripsTo_doc (d : JDoc) (h : docWF d = true) :
    StripsTo (renderDocP d).data (renderDocC d).data := by
  cases d with
  | nil =>
    show StripsTo ("[]" : String).data
      ("[" ++ sepByComma [] ++ "]" : String).data
    exact stripsTo_safe (by decide)
  | cons o os =>
    have hm := stripsTo_sepByCommaNl 1 (stripsTo_objList (o :: os) h)
    have h1 : StripsTo ("[\n" : String).data ("[" : String).data := by decide
    have h2 : StripsTo ("\n]" : String).data ("]" : String).data := by decide
    have := (h1.append hm).append h2
    simpa [renderDocP, renderDocC, data_append, List.append_assoc] using this

theorem stripJsonWs_renderDocP (d : JDoc) (h : docWF d = true) :
    stripJsonWs (renderDocP d) = renderDocC d := by
  have hs := stripsTo_doc d h
  unfold StripsTo at hs
  unfold stripJsonWs
  rw [hs]

/-! ## Helper lemmas for the claims -/

theorem splitCommaChars_ne_nil (l : List Char) : splitCommaChars l ≠ [] := by
  induction l with
  | nil => simp [splitCommaChars]
  | cons c cs ih =>
    by_cases h : c = ','
    · simp [splitCommaChars, h]
    · simp only [splitCommaChars, h, if_false]
      cases hs : splitCommaChars cs <;> simp

theorem splitCommaChars_length (l : List Char) :
    (splitCommaChars l).length = l.count ',' + 1 := by
  induction l with
  | nil => simp [splitCommaChars]
  | cons c cs ih =>
    by_cases h : c = ','
    · subst h
      simp [splitCommaChars, List.count_cons, ih]
    · simp only [splitCommaChars, h, if_false]
      cases hs : splitCommaChars cs with
      | nil => exact absurd hs (splitCommaChars_ne_nil cs)
      | cons x t =>
        rw [hs] at ih
        simp only [List.length_cons] at ih ⊢
        have hc : (c :: cs).count ',' = cs.count ',' := by
          simp [List.count_cons, h]
        omega

theorem dropWhile_head?_false (p : Char → Bool) (l : List Char) (c : Char)
    (h : (l.dropWhile p).head? = some c) : p c = false := by
  induction l with
  | nil => simp [List.dropWhile] at h
  | cons a as ih =>
    by_cases hp : p a
    · rw [List.dropWhile_cons, if_pos hp] at h
      exact ih h
    · rw [List.dropWhile_cons, if_neg hp] at h
      simp only [List.head?_cons, Option.some.injEq] at h
      subst h
      simpa using hp

theorem trimChars_reverse (l : List Char) :
    (trimChars l).reverse = (l.dropWhile isWsChar).reverse.dropWhile isWsChar := by
  simp [trimChars]

theorem trimChars_last_not_ws (l : List Char) (c : Char)
    (h : (trimChars l).getLast? = some c) : isWsChar c = false := by
  rw [← List.head?_reverse, trimChars_reverse] at h
  exact dropWhile_head?_false _ _ _ h

theorem getLast?_suffix {l₁ l₂ : List Char} (h : l₁ <:+ l₂) (hne : l₁ ≠ []) :
    l₁.getLast? = l₂.getLast? := by
  rcases h with ⟨t, rfl⟩
  rw [List.getLast?_append_of_ne_nil _ hne]

theorem trimChars_head_not_ws (l : List Char) (c : Char)
    (h : (trimChars l).head? = some c) : isWsChar c = false := by
  unfold trimChars at h
  rw [List.head?_reverse] at h
  set A := l.dropWhile isWsChar with hA
  set B := A.reverse.dropWhile isWsChar with hB
  have hBne : B ≠ [] := by
    intro hnil
    rw [hnil] at h
    simp at h
  have h1 : B.getLast? = A.reverse.getLast? :=
    getLast?_suffix (List.dropWhile_suffix _) hBne
  rw [h1, List.getLast?_reverse] at h
  exact dropWhile_head?_false _ _ _ h

theorem dropWhile_eq_self_of_head (p : Char → Bool) (l : List Char)
    (h : ∀ c, l.head? = some c → p c = false) : l.dropWhile p = l := by
  cases l with
  | nil => rfl
  | cons a as =>
    have := h a rfl
    rw [List.dropWhile_cons, if_neg (by simp [this])]

theorem trimChars_idem (l : List Char) :
    trimChars (trimChars l) = trimChars l := by
  have h1 : (trimChars l).dropWhile isWsChar = trimChars l :=
    dropWhile_eq_self_of_head _ _ (trimChars_head_not_ws l)
  have h2 : (trimChars l).reverse.dropWhile isWsChar = (trimChars l).reverse := by
    apply dropWhile_eq_self_of_head
    intro c hc
    rw [List.head?_reverse] at hc
    exact trimChars_last_not_ws l c hc
  show (((trimChars l).dropWhile isWsChar).reverse.dropWhile isWsChar).reverse
      = trimChars l
  rw [h1, h2, List.reverse_reverse]

theorem trimStr_idem (s : String) : trimStr (trimStr s) = trimStr s := by
  show (⟨trimChars (trimStr s).data⟩ : String) = ⟨trimChars s.data⟩
  rw [show (trimStr s).data = trimChars s.data from rfl, trimChars_idem]

theorem mapME_length {α β : Type} (f : α → Except DeErr β) (l : List α) :
    ∀ l', mapME f l = .ok l' → l'.length = l.length := by
  induction l with
  | nil =>
    intro l' h
    simp only [mapME, Except.ok.injEq] at h
    subst h
    rfl
  | cons a as ih =>
    intro l' h
    simp only [mapME] at h
    cases hf : f a with
    | error e => rw [hf] at h; exact Except.noConfusion h
    | ok b =>
      rw [hf] at h
      cases hm : mapME f as with
      | error e => rw [hm] at h; exact Except.noConfusion h
      | ok bs =>
        rw [hm] at h
        injection h with h2
        subst h2
        simp [ih bs hm]

theorem mapME_congr {α β : Type} (f g : α → Except DeErr β) (l : List α)
    (h : ∀ a ∈ l, f a = g a) : mapME f l = mapME g l := by
  induction l with
  | nil => rfl
  | cons a as ih =>
    simp only [mapME]
    rw [h a (by simp), ih (fun x hx => h x (by simp [hx]))]

theorem bind_ok {α β : Type} {x : Except DeErr α} {f : α → Except DeErr β}
    {b : β} (h : x >>= f = .ok b) : ∃ a, x = .ok a ∧ f a = .ok b := by
  cases x with
  | error e => exact Except.noConfusion h
  | ok a => exact ⟨a, rfl, h⟩

/-! ## Claims -/

/-- C3: for every token fed to a boolean field (`scheduled_service`,
`lighted`, `closed`), `bool_from_str` returns true exactly when the
token lowercases to "yes" or "1", false exactly when it lowercases to
"no" or "0", and otherwise an `invalid_value` error carrying the
(lowercased) offending token. -/
theorem c3_bool_from_str_cases (s : String) :
    (bool_from_str s = .ok true ↔ (lowerStr s = "yes" ∨ lowerStr s = "1"))
    ∧ (bool_from_str s = .ok false ↔ (lowerStr s = "no" ∨ lowerStr s = "0"))
    ∧ ((lowerStr s ≠ "yes" ∧ lowerStr s ≠ "1" ∧ lowerStr s ≠ "no" ∧
          lowerStr s ≠ "0") →
        bool_from_str s =
          .error (.invalidValue (lowerStr s) "Value must be yes or no")) := by
  unfold bool_from_str
  by_cases h1 : lowerStr s = "yes" <;> by_cases h2 : lowerStr s = "1" <;>
    by_cases h3 : lowerStr s = "no" <;> by_cases h4 : lowerStr s = "0" <;>
    simp_all

/-- C3 witness: the case analysis at the concrete tokens "Yes", "1",
"No", "0" and "MAYBE". -/
theorem c3_bool_from_str_cases_witness :
    bool_from_str "Yes" = .ok true ∧ bool_from_str "1" = .ok true ∧
    bool_from_str "No" = .ok false ∧ bool_from_str "0" = .ok false ∧
    bool_from_str "MAYBE" =
      .error (.invalidValue "maybe" "Value must be yes or no") :=
  ⟨(c3_bool_from_str_cases "Yes").1.mpr (by decide),
   (c3_bool_from_str_cases "1").1.mpr (by decide),
   (c3_bool_from_str_cases "No").2.1.mpr (by decide),
   (c3_bool_from_str_cases "0").2.1.mpr (by decide),
   (c3_bool_from_str_cases "MAYBE").2.2 (by decide)⟩

/-- C4 (as amended): an empty string in an optional numeric field
yields an absent value without error; a non-empty token in an optional
numeric field is parsed exactly as in a mandatory field, so a
non-numeric non-empty token is an error there too (aborting the run);
a mandatory float field rejects the empty string and every non-numeral
token. -/
theorem c4_optional_vs_mandatory :
    optField parseI32 "" = .ok none
    ∧ optField parseU32 "" = .ok none
    ∧ optField parseF64 "" = .ok none
    ∧ (∀ s, s ≠ "" → optField parseI32 s = (parseI32 s).map some)
    ∧ (∀ s, s ≠ "" → optField parseU32 s = (parseU32 s).map some)
    ∧ (∀ s, s ≠ "" → optField parseF64 s = (parseF64 s).map some)
    ∧ parseF64 "" = .error (.parseNum "")
    ∧ (∀ s, isF64Numeral s = false → parseF64 s = .error (.parseNum s)) := by
  refine ⟨rfl, rfl, rfl, ?_, ?_, ?_, rfl, ?_⟩
  · intro s hs; simp [optField, hs]
  · intro s hs; simp [optField, hs]
  · intro s hs; simp [optField, hs]
  · intro s hs; simp [parseF64, hs]

/-- C4 witness: the amended claim at the inputs "" and "abc": empty
optional elevation is absent, non-numeric optional elevation is the
same parse error a mandatory field raises. -/
theorem c4_optional_vs_mandatory_witness :
    optField parseI32 "" = .ok none
    ∧ optField parseI32 "abc" = (parseI32 "abc").map some
    ∧ optField parseI32 "abc" = .error (.parseNum "abc")
    ∧ parseF64 "abc" = .error (.parseNum "abc") :=
  ⟨c4_optional_vs_mandatory.1,
   c4_optional_vs_mandatory.2.2.2.1 "abc" (by decide),
   by decide,
   c4_optional_vs_mandatory.2.2.2.2.2.2.2 "abc" (by decide)⟩

/-- C4 counterexample to the claim as stated: a non-numeric token in
the optional elevation field does not yield an absent value — it is a
parse error, and it aborts the whole conversion. -/
theorem c4_counterexample :
    optField parseI32 "abc" = .error (.parseNum "abc")
    ∧ convert_airport_data
        [stdAirportHeader,
         ["1", "00A", "heliport", "Total RF Heliport", "40.07", "-74.93",
          "abc", "NA", "US", "US-PA", "Bensalem", "no", "00A", "", "00A",
          "", "", ""]] false = .error (.parseNum "abc") := by
  exact ⟨by decide, by decide⟩

/-- C5: the keyword coercion maps the empty string to the empty list
(never a single empty element), maps every non-empty string to the
ordered list of its comma-separated segments with surrounding
whitespace trimmed from each element (so "a, b" becomes ["a", "b"]),
and — being a total function into `List String` — never fails. -/
theorem c5_keywords_coercion :
    vec_string_from_string "" = []
    ∧ (∀ s, s ≠ "" →
        vec_string_from_string s = (splitComma s).map trimStr)
    ∧ vec_string_from_string "a, b" = ["a", "b"]
    ∧ (∀ s x, x ∈ vec_string_from_string s → trimStr x = x) := by
  refine ⟨rfl, ?_, by decide, ?_⟩
  · intro s hs
    unfold vec_string_from_string
    cases hl : s.length with
    | zero =>
      exact absurd (by cases s with
        | mk d =>
          have : d = [] := List.length_eq_zero.mp hl
          rw [this]) hs
    | succ n => rfl
  · intro s x hx
    unfold vec_string_from_string at hx
    cases hl : s.length with
    | zero => rw [hl] at hx; simp at hx
    | succ n =>
      rw [hl] at hx
      rcases List.mem_map.mp hx with ⟨y, _, rfl⟩
      exact trimStr_idem y

/-- C5 witness: the general segment description applied at the
concrete input "a, b". -/
theorem c5_keywords_coercion_witness :
    vec_string_from_string "a, b" = (splitComma "a, b").map trimStr
    ∧ vec_string_from_string "" = []
    ∧ trimStr "a" = "a" :=
  ⟨c5_keywords_coercion.2.1 "a, b" (by decide),
   c5_keywords_coercion.1,
   c5_keywords_coercion.2.2.2 "a, b" "a" (by decide)⟩

/-- C9: for a non-empty keyword input the element count is exactly
(number of commas) + 1, so non-empty inputs made only of commas or
whitespace produce lists of empty strings; only the exactly-empty
input gives the empty list. -/
theorem c9_split_count :
    (∀ s, s ≠ "" →
      (vec_string_from_string s).length = s.data.count ',' + 1)
    ∧ vec_string_from_string "," = ["", ""]
    ∧ vec_string_from_string " " = [""] := by
  refine ⟨?_, by decide, by decide⟩
  intro s hs
  have hlen : s.length ≠ 0 := by
    intro h0
    exact absurd (by cases s with
      | mk d =>
        have : d = [] := List.length_eq_zero.mp h0
        rw [this]) hs
  unfold vec_string_from_string
  cases hl : s.length with
  | zero => exact absurd hl hlen
  | succ n =>
    simp only [splitComma, List.length_map]
    exact splitCommaChars_length s.data

/-- C9 witness: the count formula at the concrete inputs "," and " ". -/
theorem c9_split_count_witness :
    (vec_string_from_string ",").length = (",".data.count ',') + 1
    ∧ (vec_string_from_string " ").length = (" ".data.count ',') + 1
    ∧ vec_string_from_string "," = ["", ""] :=
  ⟨c9_split_count.1 "," (by decide),
   c9_split_count.1 " " (by decide),
   c9_split_count.2.1⟩

/-- C7: serialization is deterministic — the conversion and the
collection-serialize step are pure functions, so identical input
tables (or record lists) and an identical pretty-print flag always
produce identical output bytes. -/
theorem c7_serialization_deterministic :
    (∀ (t1 t2 : List (List String)) (b1 b2 : Bool), t1 = t2 → b1 = b2 →
      convert_airport_data t1 b1 = convert_airport_data t2 b2)
    ∧ (∀ (l1 l2 : List Airport) (b1 b2 : Bool), l1 = l2 → b1 = b2 →
      serialize_airports l1 b1 = serialize_airports l2 b2) := by
  constructor
  · intro t1 t2 b1 b2 ht hb
    rw [ht, hb]
  · intro l1 l2 b1 b2 hl hb
    rw [hl, hb]

/-- C7 witness: determinism at a concrete one-row table and a concrete
record list, for both flag values. -/
theorem c7_serialization_deterministic_witness :
    convert_airport_data [stdAirportHeader] true
      = convert_airport_data [stdAirportHeader] true
    ∧ serialize_airports [] false = serialize_airports [] false :=
  ⟨c7_serialization_deterministic.1 [stdAirportHeader] [stdAirportHeader]
      true true rfl rfl,
   c7_serialization_deterministic.2 [] [] false false rfl rfl⟩

/-- C10: serialized records use the wire names: the type-category
fields of `Airport`, `AirportFrequency` and `Navaid` appear under the
key "type", the `Navaid` usage-type field under "usageType", the
`Runway` true-heading fields under "le_heading_degT" and
"he_heading_degT", and every other field under its declared name. -/
theorem c10_wire_names (a : Airport) (f : AirportFrequency) (r : Runway)
    (n : Navaid) :
    objKeys (airportToJObj a) =
      ["id", "ident", "type", "name", "latitude_deg", "longitude_deg",
       "elevation_ft", "continent", "iso_country", "iso_region",
       "municipality", "scheduled_service", "gps_code", "iata_code",
       "local_code", "home_link", "wikipedia_link", "keywords"]
    ∧ objKeys (airportFrequencyToJObj f) =
      ["id", "airport_ref", "airport_ident", "type", "description",
       "frequency_mhz"]
    ∧ objKeys (runwayToJObj r) =
      ["id", "airport_ref", "airport_ident", "length_ft", "width_ft",
       "surface", "lighted", "closed", "le_ident", "le_latitude_deg",
       "le_longitude_deg", "le_elevation_ft", "le_heading_degT",
       "le_displaced_threshold_ft", "he_ident", "he_latitude_deg",
       "he_longitude_deg", "he_elevation_ft", "he_heading_degT",
       "he_displaced_threshold_ft"]
    ∧ objKeys (navaidToJObj n) =
      ["id", "filename", "ident", "name", "type", "frequency_khz",
       "latitude_deg", "longitude_deg", "elevation_ft", "iso_country",
       "dme_frequency_khz", "dme_channel", "dme_latitude_deg",
       "dme_longitude_deg", "dme_elevation_ft", "slaved_variation_deg",
       "magnetic_variation_deg", "usageType", "power",
       "associated_airport"] :=
  ⟨rfl, rfl, rfl, rfl⟩

/-- C1 (as amended): for the record kinds whose fields carry no custom
`deserialize_with` coercion (here `AirportFrequency`), decoding a
well-formed row, serializing the single-record list and decoding that
output again yields a record equal in all fields to the original; in
particular the frequency-in-MHz string reaches the record, the JSON
document and the re-decoded record character for character.  (For
kinds with boolean or keyword fields the re-decode step fails; see the
counterexample.) -/
theorem c1_airport_frequency_roundtrip (p : List (String × String))
    (r : AirportFrequency)
    (h : airportFrequencyFromNamed p = .ok r) :
    serialize_airport_frequencies [r] false
        = renderDocC [airportFrequencyToJObj r]
    ∧ mapME airportFrequencyFromJObj ([r].map airportFrequencyToJObj)
        = .ok [r]
    ∧ getField p "frequency_mhz" = .ok r.frequency_mhz := by
  refine ⟨rfl, rfl, ?_⟩
  unfold airportFrequencyFromNamed at h
  obtain ⟨id, h1, h⟩ := bind_ok h
  obtain ⟨aref, h2, h⟩ := bind_ok h
  obtain ⟨aident, h3, h⟩ := bind_ok h
  obtain ⟨ftype, h4, h⟩ := bind_ok h
  obtain ⟨desc, h5, h⟩ := bind_ok h
  obtain ⟨fmhz, h6, h⟩ := bind_ok h
  injection h with h7
  rw [h6, ← h7]

/-- C1 witness: the round trip at a concrete well-formed
airport-frequency row with frequency token "122.900". -/
theorem c1_airport_frequency_roundtrip_witness :
    airportFrequencyFromNamed (stdFrequencyHeader.zip
      ["1001", "6523", "00A", "CTAF", "CTAF 122.9", "122.900"])
      = .ok ⟨"1001", "6523", "00A", "CTAF", "CTAF 122.9", "122.900"⟩
    ∧ (serialize_airport_frequencies
        [⟨"1001", "6523", "00A", "CTAF", "CTAF 122.9", "122.900"⟩] false
      = renderDocC [airportFrequencyToJObj
        ⟨"1001", "6523", "00A", "CTAF", "CTAF 122.9", "122.900"⟩]
    ∧ mapME airportFrequencyFromJObj
        ([(⟨"1001", "6523", "00A", "CTAF", "CTAF 122.9", "122.900"⟩ :
          AirportFrequency)].map airportFrequencyToJObj)
      = .ok [⟨"1001", "6523", "00A", "CTAF", "CTAF 122.9", "122.900"⟩]
    ∧ getField (stdFrequencyHeader.zip
        ["1001", "6523", "00A", "CTAF", "CTAF 122.9", "122.900"])
        "frequency_mhz" = .ok "122.900") :=
  ⟨by decide,
   c1_airport_frequency_roundtrip
     (stdFrequencyHeader.zip
       ["1001", "6523", "00A", "CTAF", "CTAF 122.9", "122.900"])
     ⟨"1001", "6523", "00A", "CTAF", "CTAF 122.9", "122.900"⟩
     (by decide)⟩

/-- C1 counterexample to the claim as stated: an Airport row decodes
to a record, but re-decoding its serialized single-record list fails
with a type error, because the derived deserializer runs
`bool_from_str` on the `scheduled_service` value, which the serializer
wrote as a JSON boolean rather than a string. -/
theorem c1_counterexample :
    airportFromNamed (stdAirportHeader.zip
      ["1", "00A", "heliport", "Total RF Heliport", "40.07", "-74.93", "11",
       "NA", "US", "US-PA", "Bensalem", "no", "00A", "", "00A", "", "", ""])
      = .ok ⟨"1", "00A", "heliport", "Total RF Heliport", ⟨"40.07"⟩,
        ⟨"-74.93"⟩, some 11, "NA", "US", "US-PA", "Bensalem", false, "00A",
        "", "00A", "", "", []⟩
    ∧ mapME airportFromJObj
        ([(⟨"1", "00A", "heliport", "Total RF Heliport", ⟨"40.07"⟩,
          ⟨"-74.93"⟩, some 11, "NA", "US", "US-PA", "Bensalem", false, "00A",
          "", "00A", "", "", []⟩ : Airport)].map airportToJObj)
      = .error (.invalidType "boolean" "a string") :=
  ⟨by decide, by decide⟩

theorem csv_width_error (header bad : List String)
    (post : List (List String)) :
    ∀ pre : List (List String),
    (∀ r ∈ pre, r.length = header.length) →
    (∀ r ∈ pre, ∃ a, airportFromNamed (header.zip r) = .ok a) →
    bad.length ≠ header.length →
    mapME (fun r =>
      if r.length = header.length then airportFromNamed (header.zip r)
      else .error (.unequalLengths header.length r.length))
      (pre ++ bad :: post)
      = .error (.unequalLengths header.length bad.length) := by
  intro pre
  induction pre with
  | nil =>
    intro _ _ hbad
    simp only [List.nil_append, mapME, if_neg hbad]
  | cons r rs ih =>
    intro hlen hdec hbad
    obtain ⟨a, ha⟩ := hdec r (by simp)
    simp only [List.cons_append, mapME, if_pos (hlen r (by simp)), ha,
      List.append_eq]
    rw [ih (fun x hx => hlen x (by simp [hx]))
      (fun x hx => hdec x (by simp [hx])) hbad]

/-- C2 (as amended): the width check compares each data row against
the first (header) row, not against the kind's fixed arity: whenever a
data row's field count differs from the header's (and the rows before
it decode), the conversion fails with the `UnequalLengths` error
carrying expected and actual counts, and produces no output.  (A table
whose header and rows uniformly carry extra columns converts
successfully; see the counterexample.) -/
theorem c2_schema_width_error (header bad : List String)
    (pre post : List (List String)) (b : Bool)
    (hlen : ∀ r ∈ pre, r.length = header.length)
    (hdec : ∀ r ∈ pre, ∃ a, airportFromNamed (header.zip r) = .ok a)
    (hbad : bad.length ≠ header.length) :
    convert_airport_data (header :: (pre ++ bad :: post)) b
      = .error (.unequalLengths header.length bad.length) := by
  simp only [convert_airport_data, csvDeserialize]
  rw [csv_width_error header bad post pre hlen hdec hbad]
  rfl

/-- C2 witness: a 17-field data row under the standard 18-field header
aborts the conversion with the width error 18 vs 17 and no output. -/
theorem c2_schema_width_error_witness :
    (["1", "00A", "heliport", "Total RF Heliport", "40.07", "-74.93", "11",
      "NA", "US", "US-PA", "Bensalem", "no", "00A", "", "00A", "",
      ""] : List String).length ≠ stdAirportHeader.length
    ∧ convert_airport_data
        [stdAirportHeader,
         ["1", "00A", "heliport", "Total RF Heliport", "40.07", "-74.93",
          "11", "NA", "US", "US-PA", "Bensalem", "no", "00A", "", "00A", "",
          ""]] false
      = .error (.unequalLengths 18 17) :=
  ⟨by decide,
   c2_schema_width_error stdAirportHeader
     ["1", "00A", "heliport", "Total RF Heliport", "40.07", "-74.93", "11",
      "NA", "US", "US-PA", "Bensalem", "no", "00A", "", "00A", "", ""]
     [] [] false (by simp) (by simp) (by decide)⟩

/-- C2 counterexample to the claim as stated: a table whose header and
single data row both carry 19 fields (the 18 Airport columns plus an
unknown extra column) converts successfully even though every data
row's field count differs from the Airport arity 18 — the extra column
is ignored, no schema-width error is raised, and output is produced. -/
theorem c2_counterexample :
    (["1", "00A", "heliport", "Total RF Heliport", "40.07", "-74.93", "11",
      "NA", "US", "US-PA", "Bensalem", "no", "00A", "", "00A", "", "", "",
      "zzz"] : List String).length = 19
    ∧ (convert_airport_data
        [stdAirportHeader ++ ["extra"],
         ["1", "00A", "heliport", "Total RF Heliport", "40.07", "-74.93",
          "11", "NA", "US", "US-PA", "Bensalem", "no", "00A", "", "00A", "",
          "", "", "zzz"]] false).isOk = true :=
  ⟨by decide, by decide⟩

/-- C6: a well-formed Airport table (standard 18-column header plus n
decodable data rows) is converted into the compact rendering of a JSON
array holding exactly n record objects, in input row order, each
carrying all 18 Airport fields under their wire names in declaration
order. -/
theorem c6_airport_table (rows : List (List String)) (recs : List Airport)
    (hlen : ∀ r ∈ rows, r.length = 18)
    (hdec : mapME (fun r => airportFromNamed (stdAirportHeader.zip r)) rows
      = .ok recs) :
    convert_airport_data (stdAirportHeader :: rows) false
      = .ok (renderDocC (recs.map airportToJObj))
    ∧ (recs.map airportToJObj).length = rows.length
    ∧ ∀ o ∈ recs.map airportToJObj, objKeys o = stdAirportHeader := by
  have hcongr : mapME (fun r =>
      if r.length = stdAirportHeader.length then
        airportFromNamed (stdAirportHeader.zip r)
      else .error (.unequalLengths stdAirportHeader.length r.length)) rows
      = mapME (fun r => airportFromNamed (stdAirportHeader.zip r)) rows := by
    apply mapME_congr
    intro r hr
    have hr18 : r.length = stdAirportHeader.length := by
      rw [hlen r hr]
      decide
    rw [if_pos hr18]
  refine ⟨?_, ?_, ?_⟩
  · simp only [convert_airport_data, csvDeserialize]
    rw [hcongr, hdec]
    rfl
  · rw [List.length_map]
    exact mapME_length _ rows recs hdec
  · intro o ho
    rcases List.mem_map.mp ho with ⟨a, _, rfl⟩
    rfl

/-- C6 witness: a header plus 2 data rows (the second with a blank
elevation column) convert to exactly 2 entries in row order, the
second with an absent elevation. -/
theorem c6_airport_table_witness :
    (∀ r ∈ [["1", "00A", "heliport", "Total RF Heliport", "40.07", "-74.93",
        "11", "NA", "US", "US-PA", "Bensalem", "no", "00A", "", "00A", "",
        "", ""],
       ["2", "00AK", "small_airport", "Lowell Field", "59.95", "-151.69",
        "", "NA", "US", "US-AK", "Anchor Point", "no", "00AK", "", "00AK",
        "", "", "field, strip"]], r.length = 18)
    ∧ mapME (fun r => airportFromNamed (stdAirportHeader.zip r))
        [["1", "00A", "heliport", "Total RF Heliport", "40.07", "-74.93",
          "11", "NA", "US", "US-PA", "Bensalem", "no", "00A", "", "00A", "",
          "", ""],
         ["2", "00AK", "small_airport", "Lowell Field", "59.95", "-151.69",
          "", "NA", "US", "US-AK", "Anchor Point", "no", "00AK", "", "00AK",
          "", "", "field, strip"]]
      = .ok [⟨"1", "00A", "heliport", "Total RF Heliport", ⟨"40.07"⟩,
          ⟨"-74.93"⟩, some 11, "NA", "US", "US-PA", "Bensalem", false,
          "00A", "", "00A", "", "", []⟩,
        ⟨"2", "00AK", "small_airport", "Lowell Field", ⟨"59.95"⟩,
          ⟨"-151.69"⟩, none, "NA", "US", "US-AK", "Anchor Point", false,
          "00AK", "", "00AK", "", "", ["field", "strip"]⟩]
    ∧ (convert_airport_data
        (stdAirportHeader ::
          [["1", "00A", "heliport", "Total RF Heliport", "40.07", "-74.93",
            "11", "NA", "US", "US-PA", "Bensalem", "no", "00A", "", "00A",
            "", "", ""],
           ["2", "00AK", "small_airport", "Lowell Field", "59.95",
            "-151.69", "", "NA", "US", "US-AK", "Anchor Point", "no",
            "00AK", "", "00AK", "", "", "field, strip"]]) false
      = .ok (renderDocC
          ([⟨"1", "00A", "heliport", "Total RF Heliport", ⟨"40.07"⟩,
            ⟨"-74.93"⟩, some 11, "NA", "US", "US-PA", "Bensalem", false,
            "00A", "", "00A", "", "", []⟩,
          ⟨"2", "00AK", "small_airport", "Lowell Field", ⟨"59.95"⟩,
            ⟨"-151.69"⟩, none, "NA", "US", "US-AK", "Anchor Point", false,
            "00AK", "", "00AK", "", "", ["field", "strip"]⟩].map
            airportToJObj))
    ∧ ([⟨"1", "00A", "heliport", "Total RF Heliport", ⟨"40.07"⟩,
        ⟨"-74.93"⟩, some 11, "NA", "US", "US-PA", "Bensalem", false, "00A",
        "", "00A", "", "", []⟩,
       (⟨"2", "00AK", "small_airport", "Lowell Field", ⟨"59.95"⟩,
        ⟨"-151.69"⟩, none, "NA", "US", "US-AK", "Anchor Point", false,
        "00AK", "", "00AK", "", "", ["field", "strip"]⟩ : Airport)].map
        airportToJObj).length = 2
    ∧ ∀ o ∈ ([⟨"1", "00A", "heliport", "Total RF Heliport", ⟨"40.07"⟩,
        ⟨"-74.93"⟩, some 11, "NA", "US", "US-PA", "Bensalem", false, "00A",
        "", "00A", "", "", []⟩,
       (⟨"2", "00AK", "small_airport", "Lowell Field", ⟨"59.95"⟩,
        ⟨"-151.69"⟩, none, "NA", "US", "US-AK", "Anchor Point", false,
        "00AK", "", "00AK", "", "", ["field", "strip"]⟩ : Airport)].map
        airportToJObj), objKeys o = stdAirportHeader) := by
  refine ⟨by decide, by decide, ?_⟩
  have h := c6_airport_table
    [["1", "00A", "heliport", "Total RF Heliport", "40.07", "-74.93",
      "11", "NA", "US", "US-PA", "Bensalem", "no", "00A", "", "00A", "",
      "", ""],
     ["2", "00AK", "small_airport", "Lowell Field", "59.95", "-151.69",
      "", "NA", "US", "US-AK", "Anchor Point", "no", "00AK", "", "00AK",
      "", "", "field, strip"]]
    [⟨"1", "00A", "heliport", "Total RF Heliport", ⟨"40.07"⟩, ⟨"-74.93"⟩,
      some 11, "NA", "US", "US-PA", "Bensalem", false, "00A", "", "00A",
      "", "", []⟩,
     ⟨"2", "00AK", "small_airport", "Lowell Field", ⟨"59.95"⟩, ⟨"-151.69"⟩,
      none, "NA", "US", "US-AK", "Anchor Point", false, "00AK", "", "00AK",
      "", "", ["field", "strip"]⟩]
    (by decide) (by decide)
  exact ⟨h.1, h.2.1, h.2.2⟩

theorem freqDoc_wf (lf : List AirportFrequency) :
    docWF (lf.map airportFrequencyToJObj) = true := by
  induction lf with
  | nil => rfl
  | cons f fs ih =>
    simp only [List.map_cons, docWF, List.all_cons, Bool.and_eq_true]
    exact ⟨rfl, ih⟩

/-- C8: the pretty-printed and compact serializations of a record list
represent the identical logical content: both render the same list of
JSON record objects, and removing the whitespace standing outside
string literals from the pretty output yields the compact output byte
for byte.  (Stated for `Airport` lists with well-formed float tokens
and unconditionally for `AirportFrequency` lists.) -/
theorem c8_pretty_compact_content (l : List Airport)
    (lf : List AirportFrequency)
    (h : docWF (l.map airportToJObj) = true) :
    stripJsonWs (serialize_airports l true) = serialize_airports l false
    ∧ stripJsonWs (serialize_airport_frequencies lf true)
        = serialize_airport_frequencies lf false := by
  constructor
  · show stripJsonWs (renderDocP (l.map airportToJObj))
        = renderDocC (l.map airportToJObj)
    exact stripJsonWs_renderDocP _ h
  · show stripJsonWs (renderDocP (lf.map airportFrequencyToJObj))
        = renderDocC (lf.map airportFrequencyToJObj)
    exact stripJsonWs_renderDocP _ (freqDoc_wf lf)

/-- C8 witness: the whitespace-stripping equivalence at a concrete
one-record Airport list and a concrete one-record frequency list. -/
theorem c8_pretty_compact_content_witness :
    docWF ([(⟨"1", "00A", "heliport", "Total RF Heliport", ⟨"40.07"⟩,
        ⟨"-74.93"⟩, some 11, "NA", "US", "US-PA", "Bensalem", false, "00A",
        "", "00A", "", "", []⟩ : Airport)].map airportToJObj) = true
    ∧ (stripJsonWs (serialize_airports
        [⟨"1", "00A", "heliport", "Total RF Heliport", ⟨"40.07"⟩,
          ⟨"-74.93"⟩, some 11, "NA", "US", "US-PA", "Bensalem", false,
          "00A", "", "00A", "", "", []⟩] true)
      = serialize_airports
        [⟨"1", "00A", "heliport", "Total RF Heliport", ⟨"40.07"⟩,
          ⟨"-74.93"⟩, some 11, "NA", "US", "US-PA", "Bensalem", false,
          "00A", "", "00A", "", "", []⟩] false
    ∧ stripJsonWs (serialize_airport_frequencies
        [⟨"1001", "6523", "00A", "CTAF", "CTAF 122.9", "122.900"⟩] true)
      = serialize_airport_frequencies
        [⟨"1001", "6523", "00A", "CTAF", "CTAF 122.9", "122.900"⟩] false) :=
  ⟨by decide,
   c8_pretty_compact_content
     [⟨"1", "00A", "heliport", "Total RF Heliport", ⟨"40.07"⟩, ⟨"-74.93"⟩,
       some 11, "NA", "US", "US-PA", "Bensalem", false, "00A", "", "00A",
       "", "", []⟩]
     [⟨"1001", "6523", "00A", "CTAF", "CTAF 122.9", "122.900"⟩]
     (by decide)⟩
